/-
  Verification of the Noona-Portal library-notification pipeline.

  Shallow embedding of:
  * the Kavita notification cycle `sendNewItemNotifications` and its helpers
    `getSeriesByLibrary` / `checkForNewItems` (kavita/postKavita.mjs),
  * the cycle driver `runCheck` and scheduler setup `setupLibraryNotifications`
    (discord/tasks/libraryNotifications.mjs, Warden-aware version),
  * the Vault notified-set store `waitForVaultReady` / `getNotifiedIds` /
    `saveNotifiedIds` (noona/vault/initVault.mjs, v2),
  * the Kavita HTTP wrapper `fetchData` with its 401 re-authentication retry
    (kavita/kavita.mjs).

  External effects (HTTP responses, the Discord channel, the message sends,
  timers) are modelled as explicit oracle inputs; machine numbers are Int/Nat;
  JS exceptions are modelled with explicit `Except` / dedicated constructors.
-/
import Mathlib

/-! ## Vault notified-set store (noona/vault/initVault.mjs, v2) -/

/-- One response of `GET /v2/system/health/databaseHealth`: either the HTTP
call threw, or it returned a status code plus, for each of mongo / redis /
mariadb, whether its `status` field lower-cases to `"online"`. -/
inductive HealthResp where
  | threw
  | resp (status : Nat) (mongoOnline redisOnline mariadbOnline : Bool)
deriving DecidableEq

/-- The success condition inside the polling loop of `waitForVaultReady`:
`res.status === 200`, structured body, and all three databases online. -/
def healthOk : HealthResp → Bool
  | HealthResp.threw => false
  | HealthResp.resp status m r d => status == 200 && m && r && d

/-- `timeoutMs` default of `waitForVaultReady`. -/
def vaultTimeoutMs : Nat := 10000

/-- Sleep between two health polls (`setTimeout(res, 500)`). -/
def vaultPollMs : Nat := 500

/-- Number of poll attempts that fit in the timeout window: the loop runs
while `Date.now() - start < timeoutMs` and each failed attempt advances the
clock by one 500 ms sleep, so polls happen at t = 0, 500, ..., 9500. -/
def vaultMaxPolls : Nat := vaultTimeoutMs / vaultPollMs

/-- The polling loop of `waitForVaultReady`: consult the oracle at poll
index `k`; succeed immediately on a healthy response, otherwise sleep and
retry until the fuel (remaining polls before the deadline) runs out. -/
def waitFrom (oracle : Nat → HealthResp) : Nat → Nat → Bool
  | _, 0 => false
  | k, fuel + 1 => if healthOk (oracle k) then true else waitFrom oracle (k + 1) fuel

/-- `waitForVaultReady`: bounded health-poll loop, `false` on timeout. -/
def waitForVaultReady (oracle : Nat → HealthResp) : Bool :=
  waitFrom oracle 0 vaultMaxPolls

/-- Outcome of the `axios.post` read of `/v2/mongodb/notifications/read`:
threw, or returned a body whose `data?.ids` is absent or a list. -/
inductive ReadResp where
  | threw
  | ok (ids : Option (List Nat))
deriving DecidableEq

/-- `getNotifiedIds`: wait for health (abort with `[]` when unavailable),
then read; `res.data?.ids ?? []`; any thrown error is caught and
converted to `[]`.  The `Except` result makes every *uncaught* JS
exception visible as `.error`; the function never produces one. -/
def getNotifiedIds (health : Nat → HealthResp) (read : ReadResp) :
    Except String (List Nat) :=
  if waitForVaultReady health = false then Except.ok []
  else
    match read with
    | ReadResp.threw => Except.ok []
    | ReadResp.ok ids => Except.ok (ids.getD [])

/-- Outcome of the `axios.post` write of `/v2/mongodb/notifications/update`:
threw, or returned a body whose `data?.success` is absent or a Bool. -/
inductive SaveResp where
  | threw
  | ok (success : Option Bool)
deriving DecidableEq

/-- `saveNotifiedIds`: wait for health (abort with `false`), then write and
return `res.data?.success === true`; any thrown error is caught and
converted to `false`. -/
def saveNotifiedIds (health : Nat → HealthResp) (resp : SaveResp) :
    Except String Bool :=
  if waitForVaultReady health = false then Except.ok false
  else
    match resp with
    | SaveResp.threw => Except.ok false
    | SaveResp.ok s => Except.ok (s == some true)

/-! ## Kavita HTTP wrapper `fetchData` (kavita/kavita.mjs) -/

/-- Result of one `axios(config)` call: data, or an error carrying
`err.response?.status` (`none` when there was no HTTP response). -/
inductive HttpResp (α : Type) where
  | ok (d : α)
  | err (status : Option Nat)
deriving DecidableEq

/-- Observable outcome of one `fetchData` call: the value returned to the
caller (`.ok (some d)` data, `.ok none` the `null` error result, `.error s`
an exception propagated to the caller), the number of requests issued, and
the number of `authenticate()` invocations. -/
structure FetchOut (α : Type) where
  result : Except (Option Nat) (Option α)
  requests : Nat
  authCalls : Nat

/-- `KavitaAPI.fetchData`: authenticate first when no token is cached; issue
the request; on a 401 response re-authenticate once and retry once, the
retry's own failure propagating to the caller; on any other failure return
`null` immediately.  `attempt k` is the outcome of the (k+1)-th HTTP
request of this call. -/
def fetchData {α : Type} (tokenCached : Bool) (attempt : Nat → HttpResp α) :
    FetchOut α :=
  let initAuth := if tokenCached then 0 else 1
  match attempt 0 with
  | HttpResp.ok d => ⟨Except.ok (some d), 1, initAuth⟩
  | HttpResp.err s =>
    if s = some 401 then
      match attempt 1 with
      | HttpResp.ok d => ⟨Except.ok (some d), 2, initAuth + 1⟩
      | HttpResp.err s2 => ⟨Except.error s2, 2, initAuth + 1⟩
    else ⟨Except.ok none, 1, initAuth⟩

/-! ## Scheduler setup (discord/tasks/libraryNotifications.mjs, Warden) -/

/-- The raw `CHECK_INTERVAL_HOURS` environment value as seen by
`parseInt(..., 10)`: absent, a string with no numeric prefix, or a number. -/
inductive EnvVal where
  | absent
  | nonNumeric (s : String)
  | num (n : Int)
deriving DecidableEq

/-- `parseInt(process.env.CHECK_INTERVAL_HOURS, 10)` with `none` standing
for `NaN` (absent or non-numeric input). -/
def parseIntervalEnv : EnvVal → Option Int
  | EnvVal.absent => none
  | EnvVal.nonNumeric _ => none
  | EnvVal.num n => some n

/-- What `setupLibraryNotifications` armed: whether the initial `setTimeout`
and the repeating `setInterval` were installed, and with which interval. -/
structure SetupOut where
  timersArmed : Bool
  intervalMs : Option Int
deriving DecidableEq

/-- `setupLibraryNotifications` (Warden version): bail out when the client
is missing; parse `CHECK_INTERVAL_HOURS`; when it is `NaN` or `< 1`, log and
return before arming either timer (no default is substituted); otherwise arm
both timers with `intervalHours * 60 * 60 * 1000`. -/
def setupLibraryNotifications (clientReady : Bool) (env : EnvVal) : SetupOut :=
  if clientReady = false then ⟨false, none⟩
  else
    match parseIntervalEnv env with
    | none => ⟨false, none⟩
    | some h => if h < 1 then ⟨false, none⟩ else ⟨true, some (h * 60 * 60 * 1000)⟩

/-! ## Scheduler concurrency (interleaving model)

`checkNow` is the cycle function itself and the `setTimeout` / `setInterval`
callbacks invoke it directly; the function body begins with the channel
lookup and consults no in-flight flag.  A cycle is modelled as three atomic
segments separated by its `await` suspension points:
segment 0 issues the catalog query, segment 1 filters/marks/renders,
segment 2 sends and saves.  A trigger (timer tick or `checkNow`) therefore
unconditionally spawns a fresh cycle at segment 0. -/

/-- Scheduler state: the program counters of the in-flight cycles, and a
call counter on the Catalog Client. -/
structure SchedState where
  tasks : List Nat
  catalogCalls : Nat
deriving DecidableEq

/-- Events: an external trigger (timer tick or `checkNow()`), or the event
loop resuming in-flight cycle `i` for one segment. -/
inductive SchedEv where
  | trigger
  | run (i : Nat)
deriving DecidableEq

/-- Number of atomic segments of one cycle. -/
def cycleSegments : Nat := 3

/-- One scheduler step.  `trigger` spawns a new cycle unconditionally —
the source has no busy flag to make it a no-op.  `run i` advances cycle `i`
by one segment; its first segment performs the catalog query. -/
def schedStep (s : SchedState) (e : SchedEv) : SchedState :=
  match e with
  | SchedEv.trigger => ⟨s.tasks ++ [0], s.catalogCalls⟩
  | SchedEv.run i =>
    match s.tasks.get? i with
    | none => s
    | some pc =>
      let calls := if pc = 0 then s.catalogCalls + 1 else s.catalogCalls
      if pc + 1 ≥ cycleSegments then ⟨s.tasks.eraseIdx i, calls⟩
      else ⟨s.tasks.set i (pc + 1), calls⟩

/-- Run a sequence of events from the idle scheduler. -/
def schedRun (evs : List SchedEv) : SchedState :=
  evs.foldl schedStep ⟨[], 0⟩

/-! ## Data model of the notification pipeline (kavita/postKavita.mjs) -/

/-- One entry of the `/api/Library/libraries` response. -/
structure KLibrary where
  id : Nat
  name : String
deriving DecidableEq

/-- One entry of the `/api/Series/all-v2` response; `created` is the series
creation timestamp in milliseconds since the epoch. -/
structure Series where
  id : Nat
  name : String
  libraryId : Nat
  created : Int
deriving DecidableEq

/-- A detected new item as pushed by the detection loop:
`{ ...item, libraryName: library.name }`. -/
structure NewItem where
  id : Nat
  name : String
  created : Int
  libraryName : String
deriving DecidableEq

/-- `{ ...item, libraryName: library.name }`. -/
def toNewItem (l : KLibrary) (s : Series) : NewItem :=
  ⟨s.id, s.name, s.created, l.name⟩

/-- `Set.add` on the notified-id set (JS `Set` keeps one copy of each id,
in insertion order). -/
def addId (s : List Nat) (i : Nat) : List Nat :=
  if i ∈ s then s else s ++ [i]

/-- `(items || []).filter(item => !notifiedIds.has(item.id))`. -/
def freshOf (items : List Series) (notified : List Nat) : List Series :=
  items.filter (fun s => !(decide (s.id ∈ notified)))

/-! ## Detection (`getSeriesByLibrary`, `checkForNewItems`) -/

/-- Observable outcome of the `fetchData('/api/Series/all-v2', ...)` call
underlying one library's fetch: an exception propagated out of `fetchData`
(its 401 path retries with a bare `await axios(config)` whose failure is
not caught), the `null` error result, or an array of series. -/
inductive FetchSeries where
  | raised
  | nul
  | arr (l : List Series)
deriving DecidableEq

/-- `getSeriesByLibrary`: a non-array result (the `null` error value)
becomes `[]`, an array is filtered to the requested library, and an
exception propagates. -/
def getSeriesByLibrary (resp : FetchSeries) (libraryId : Nat) :
    Except Unit (List Series) :=
  match resp with
  | FetchSeries.raised => Except.error ()
  | FetchSeries.nul => Except.ok []
  | FetchSeries.arr l => Except.ok (l.filter (fun s => decide (s.libraryId = libraryId)))

/-- `parseInt(process.env.KAVITA_LOOKBACK_HOURS, 10) || 168`: `NaN`
(absent / non-numeric, modelled as `none`) and `0` are falsy and fall back
to the 168-hour default. -/
def lookbackHours (env : Option Int) : Int :=
  match env with
  | none => 168
  | some h => if h = 0 then 168 else h

/-- `checkForNewItems(libraryId)` on the notification path
(`lookbackDays` null): `cutoff = now - (hours / 24) * 24*60*60*1000`,
keep `created >= cutoff`. -/
def checkForNewItems (resp : FetchSeries) (libraryId : Nat) (now : Int)
    (env : Option Int) : Except Unit (List Series) :=
  match getSeriesByLibrary resp libraryId with
  | Except.error e => Except.error e
  | Except.ok allSeries =>
    Except.ok (allSeries.filter
      (fun s => decide (now - lookbackHours env * 3600000 ≤ s.created)))

/-- The per-library detection loop of `sendNewItemNotifications`: for each
library in order, fetch its items, keep the ones not yet notified, tag them
with the library name and accumulate.  An exception from a library's fetch
propagates, abandoning the remaining libraries.  Also returns the number of
per-library catalog queries issued (the raising one included). -/
def detectNew (resp : Nat → FetchSeries) (notified : List Nat) (now : Int)
    (env : Option Int) : List KLibrary → Except Unit (List NewItem) × Nat
  | [] => (Except.ok [], 0)
  | l :: rest =>
    match checkForNewItems (resp l.id) l.id now env with
    | Except.error _ => (Except.error (), 1)
    | Except.ok items =>
      match detectNew resp notified now env rest with
      | (Except.error _, n) => (Except.error (), n + 1)
      | (Except.ok tail, n) =>
        (Except.ok ((freshOf items notified).map (toNewItem l) ++ tail), n + 1)

/-! ## Dispatch (sorting, paging, marking, sending) -/

/-- Stable insertion of one item into a list sorted newest-first, matching
the comparator `(a, b) => new Date(b.created) - new Date(a.created)`. -/
def insertDesc (x : NewItem) : List NewItem → List NewItem
  | [] => [x]
  | y :: ys => if y.created ≤ x.created then x :: y :: ys else y :: insertDesc x ys

/-- `newItems.sort((a, b) => new Date(b.created) - new Date(a.created))`:
stable sort, newest first. -/
def sortDesc : List NewItem → List NewItem
  | [] => []
  | x :: xs => insertDesc x (sortDesc xs)

/-- Fuel-driven chunking; with fuel ≥ length this is
`Array.from({length: ceil(n/10)}, (_, i) => items.slice(i*10, i*10+10))`. -/
def chunksGo {α : Type} : Nat → List α → List (List α)
  | 0, _ => []
  | _, [] => []
  | fuel + 1, x :: xs => (x :: xs).take 10 :: chunksGo fuel ((x :: xs).drop 10)

/-- The page partition of the sorted item list (pages of 10). -/
def chunks10 {α : Type} (l : List α) : List (List α) :=
  chunksGo l.length l

/-- The `batches[i].forEach(item => { embed.addFields(...);
notifiedIds.add(item.id); })` body: every id of the page is added to the
in-memory notified set while the page's embed is being built. -/
def markBatch (b : List NewItem) (s : List Nat) : List Nat :=
  b.foldl (fun acc it => addId acc it.id) s

/-- The dispatch loop over pages: page `i` first marks all its ids (during
embed rendering), then attempts `channel.send`; a send failure is caught
and logged, so the loop continues either way.  Returns the final notified
set, the number of send attempts and the number of successful sends. -/
def dispatchLoop (sendOk : Nat → Bool) :
    List (List NewItem) → List Nat → Nat → List Nat × Nat × Nat
  | [], s, _ => (s, 0, 0)
  | b :: rest, s, i =>
    let s2 := markBatch b s
    let r := dispatchLoop sendOk rest s2 (i + 1)
    (r.1, r.2.1 + 1, r.2.2 + (if sendOk i then 1 else 0))

/-! ## The full cycle (`sendNewItemNotifications`, `runCheck`) -/

/-- Outcome of `discordClient.channels.fetch(channelId)`: the fetch threw,
returned a falsy value, or returned a channel with the given
`isTextBased()` answer. -/
inductive ChannelResp where
  | raised
  | missing
  | chan (textBased : Bool)
deriving DecidableEq

/-- The environment one cycle runs against: configuration and the outcomes
of its external calls.  `libraries` is the `/api/Library/libraries` result
(`none` for the `null` error value), `seriesResp` the per-library series
fetch outcome, `sendOk i` whether the send of page `i` succeeds. -/
structure CycleEnv where
  channelId : Option String
  channel : ChannelResp
  libraries : Option (List KLibrary)
  seriesResp : Nat → FetchSeries
  sendOk : Nat → Bool
  now : Int
  lookbackEnv : Option Int

/-- Observable result of one completed `sendNewItemNotifications` call:
the returned array, the final in-memory notified set, the number of
catalog queries issued, and the page-send attempt/success counts. -/
structure CycleResult where
  returned : List NewItem
  notified : List Nat
  libCalls : Nat
  sendAttempts : Nat
  sendSuccesses : Nat
deriving DecidableEq

/-- A cycle either returns normally or raises (the detection loop is not
wrapped in try/catch, so a raising library fetch propagates); on a raise
the set is still untouched — no id is added before the dispatch loop. -/
inductive CycleOut where
  | ok (r : CycleResult)
  | raised (notified : List Nat) (libCalls : Nat)
deriving DecidableEq

/-- `sendNewItemNotifications`: guard on the channel id; fetch the channel
inside try/catch, bailing out with `[]` when it throws, is falsy, or is not
text-based; fetch the library list (bail out on `null` or empty); run the
detection loop; bail out with `[]` when nothing is new; otherwise sort,
page, and run the dispatch loop. -/
def sendNewItemNotifications (env : CycleEnv) (notified : List Nat) : CycleOut :=
  match env.channelId with
  | none => CycleOut.ok ⟨[], notified, 0, 0, 0⟩
  | some _ =>
    match env.channel with
    | ChannelResp.raised => CycleOut.ok ⟨[], notified, 0, 0, 0⟩
    | ChannelResp.missing => CycleOut.ok ⟨[], notified, 0, 0, 0⟩
    | ChannelResp.chan textBased =>
      if textBased = false then CycleOut.ok ⟨[], notified, 0, 0, 0⟩
      else
        match env.libraries with
        | none => CycleOut.ok ⟨[], notified, 1, 0, 0⟩
        | some libs =>
          if libs.isEmpty then CycleOut.ok ⟨[], notified, 1, 0, 0⟩
          else
            match detectNew env.seriesResp notified env.now env.lookbackEnv libs with
            | (Except.error _, n) => CycleOut.raised notified (1 + n)
            | (Except.ok newItems, n) =>
              if newItems.isEmpty then CycleOut.ok ⟨[], notified, 1 + n, 0, 0⟩
              else
                let sorted := sortDesc newItems
                let d := dispatchLoop env.sendOk (chunks10 sorted) notified 0
                CycleOut.ok ⟨sorted, d.1, 1 + n, d.2.1, d.2.2⟩

/-- Observable result of one `runCheck`: the cycle outcome and the payload
passed to `vault.saveNotifiedIds` (`none` when it was not invoked). -/
structure RunOut where
  cycle : CycleOut
  savedPayload : Option (List Nat)
deriving DecidableEq

/-- `runCheck`: run the cycle (no try/catch around it, so a raising cycle
propagates before the save branch); persist the spread of the whole
in-memory set only when the cycle returned at least one new item. -/
def runCheck (env : CycleEnv) (notified : List Nat) : RunOut :=
  match sendNewItemNotifications env notified with
  | CycleOut.raised nf c => ⟨CycleOut.raised nf c, none⟩
  | CycleOut.ok r =>
    ⟨CycleOut.ok r, if r.returned.isEmpty then none else some r.notified⟩

/-! ## Concrete fixtures used by witnesses and counterexamples -/

/-- A single detected item: series 7 of library 1. -/
def itW : NewItem := ⟨7, "a", 0, "L"⟩

/-- A healthy one-library environment whose catalog holds one fresh series
(id 7) and whose page sends succeed. -/
def envW : CycleEnv :=
  ⟨some "c", ChannelResp.chan true, some [⟨1, "L"⟩],
   fun _ => FetchSeries.arr [⟨7, "a", 1, 0⟩], fun _ => true, 0, some 1⟩

/-- The cycle result of `envW` from an empty notified set: item 7 returned,
id 7 marked, 2 catalog calls, 1 successful page send. -/
def rW : CycleResult := ⟨[itW], [7], 2, 1, 1⟩

/-- A catalog where the already-announced series 7 is joined by a new
series 8. -/
def respW2 : Nat → FetchSeries :=
  fun _ => FetchSeries.arr [⟨7, "a", 1, 0⟩, ⟨8, "b", 1, 0⟩]

/-- Fifteen fresh series of library 1 with strictly decreasing creation
times, so they page into one batch of 10 and one of 5. -/
def seriesPages : List Series :=
  [⟨1, "s", 1, -1⟩, ⟨2, "s", 1, -2⟩, ⟨3, "s", 1, -3⟩, ⟨4, "s", 1, -4⟩,
   ⟨5, "s", 1, -5⟩, ⟨6, "s", 1, -6⟩, ⟨7, "s", 1, -7⟩, ⟨8, "s", 1, -8⟩,
   ⟨9, "s", 1, -9⟩, ⟨10, "s", 1, -10⟩, ⟨11, "s", 1, -11⟩, ⟨12, "s", 1, -12⟩,
   ⟨13, "s", 1, -13⟩, ⟨14, "s", 1, -14⟩, ⟨15, "s", 1, -15⟩]

/-- Environment with the 15 series of `seriesPages`, where the send of
page 0 fails and every later send succeeds. -/
def envPages : CycleEnv :=
  ⟨some "c", ChannelResp.chan true, some [⟨1, "L"⟩],
   fun _ => FetchSeries.arr seriesPages, fun i => decide (i ≠ 0), 0, some 1⟩

/-- A first request answered 401 and a retry that returns data. -/
def attempt401ok : Nat → HttpResp Nat :=
  fun k => if k = 0 then HttpResp.err (some 401) else HttpResp.ok 5

/-- A first request answered 401 and a retry that fails with no response. -/
def attempt401err : Nat → HttpResp Nat :=
  fun k => if k = 0 then HttpResp.err (some 401) else HttpResp.err none

/-- A request answered 500. -/
def attempt500 : Nat → HttpResp Nat := fun _ => HttpResp.err (some 500)

/-- A series created exactly 168 hours before time 0. -/
def sB : Series := ⟨5, "x", 1, -604800000⟩

/-- Three libraries where library 2's series fetch raises (a 401 whose
retried request failed) while libraries 1 and 3 each hold one fresh
series. -/
def envAbort : CycleEnv :=
  ⟨some "c", ChannelResp.chan true, some [⟨1, "A"⟩, ⟨2, "B"⟩, ⟨3, "C"⟩],
   fun lid => if lid = 2 then FetchSeries.raised
              else FetchSeries.arr [⟨lid * 10, "s", lid, 0⟩],
   fun _ => true, 0, some 1⟩

/-- A catalog where library 2's fetch yields the `null` error result and
every other library holds one fresh series. -/
def respNul : Nat → FetchSeries :=
  fun lid => if lid = 2 then FetchSeries.nul
             else FetchSeries.arr [⟨lid * 10, "s", lid, 0⟩]

/-- A healthy environment whose single library has no series at all. -/
def envEmpty : CycleEnv :=
  ⟨some "c", ChannelResp.chan true, some [⟨1, "L"⟩],
   fun _ => FetchSeries.arr [], fun _ => true, 0, some 1⟩

/-- The cycle result of `envEmpty` from the notified set `[3]`. -/
def rEmpty : CycleResult := ⟨[], [3], 2, 0, 0⟩

/-- An environment whose notification channel id is unset. -/
def envGuard : CycleEnv :=
  ⟨none, ChannelResp.chan true, some [⟨1, "L"⟩], fun _ => FetchSeries.nul,
   fun _ => true, 0, none⟩

/-! ## Helper lemmas -/

lemma mem_addId_self (s : List Nat) (i : Nat) : i ∈ addId s i := by
  unfold addId; split <;> simp [*]

lemma mem_addId_of_mem {s : List Nat} {j : Nat} (h : j ∈ s) (i : Nat) :
    j ∈ addId s i := by
  unfold addId; split
  · exact h
  · exact List.mem_append_left _ h

lemma mem_markBatch_of_mem {b : List NewItem} {s : List Nat} {j : Nat}
    (h : j ∈ s) : j ∈ markBatch b s := by
  induction b generalizing s with
  | nil => exact h
  | cons x xs ih =>
    show j ∈ markBatch xs (addId s x.id)
    exact ih (mem_addId_of_mem h x.id)

lemma id_mem_markBatch {b : List NewItem} {it : NewItem} (h : it ∈ b)
    (s : List Nat) : it.id ∈ markBatch b s := by
  induction b generalizing s with
  | nil => cases h
  | cons x xs ih =>
    rcases List.mem_cons.mp h with h1 | h2
    · subst h1
      show it.id ∈ markBatch xs (addId s it.id)
      exact mem_markBatch_of_mem (mem_addId_self s it.id)
    · exact ih h2 (addId s x.id)

lemma dispatch_mono {sendOk : Nat → Bool} {bs : List (List NewItem)}
    {s : List Nat} {i j : Nat} (h : j ∈ s) :
    j ∈ (dispatchLoop sendOk bs s i).1 := by
  induction bs generalizing s i with
  | nil => exact h
  | cons b rest ih =>
    show j ∈ (dispatchLoop sendOk rest (markBatch b s) (i + 1)).1
    exact ih (mem_markBatch_of_mem h)

lemma dispatch_marks {sendOk : Nat → Bool} {bs : List (List NewItem)}
    {s : List Nat} {i : Nat} {it : NewItem} (h : it ∈ bs.flatten) :
    it.id ∈ (dispatchLoop sendOk bs s i).1 := by
  induction bs generalizing s i with
  | nil => simp [List.flatten] at h
  | cons b rest ih =>
    show it.id ∈ (dispatchLoop sendOk rest (markBatch b s) (i + 1)).1
    rw [List.flatten_cons] at h
    rcases List.mem_append.mp h with h1 | h2
    · exact dispatch_mono (id_mem_markBatch h1 s)
    · exact ih h2

lemma mem_insertDesc {x a : NewItem} {l : List NewItem} :
    a ∈ insertDesc x l ↔ a = x ∨ a ∈ l := by
  induction l with
  | nil => simp [insertDesc]
  | cons y ys ih =>
    unfold insertDesc; split
    · simp [List.mem_cons]
    · simp only [List.mem_cons, ih]; tauto

lemma mem_sortDesc {a : NewItem} {l : List NewItem} :
    a ∈ sortDesc l ↔ a ∈ l := by
  induction l with
  | nil => simp [sortDesc]
  | cons x xs ih => simp [sortDesc, mem_insertDesc, ih, List.mem_cons]

lemma insertDesc_ne_nil (x : NewItem) (l : List NewItem) :
    insertDesc x l ≠ [] := by
  cases l with
  | nil => simp [insertDesc]
  | cons y ys => unfold insertDesc; split <;> simp

lemma sortDesc_eq_nil_iff {l : List NewItem} : sortDesc l = [] ↔ l = [] := by
  cases l with
  | nil => simp [sortDesc]
  | cons x xs => simp [sortDesc, insertDesc_ne_nil]

lemma chunksGo_flatten {α : Type} :
    ∀ (fuel : Nat) (l : List α), l.length ≤ fuel →
      (chunksGo fuel l).flatten = l := by
  intro fuel
  induction fuel with
  | zero =>
    intro l h
    rw [List.eq_nil_of_length_eq_zero (Nat.le_zero.mp h)]
    simp [chunksGo]
  | succ n ih =>
    intro l h
    cases l with
    | nil => simp [chunksGo]
    | cons x xs =>
      simp only [chunksGo, List.flatten_cons]
      rw [ih ((x :: xs).drop 10)
        (by rw [List.length_drop]; simp only [List.length_cons] at h ⊢; omega)]
      exact List.take_append_drop 10 (x :: xs)

lemma chunks10_flatten {α : Type} (l : List α) : (chunks10 l).flatten = l :=
  chunksGo_flatten l.length l le_rfl

lemma detectNew_ok_not_notified (resp : Nat → FetchSeries) (notified : List Nat)
    (now : Int) (env : Option Int) :
    ∀ (libs : List KLibrary) (items : List NewItem) (c : Nat) (i : Nat),
      detectNew resp notified now env libs = (Except.ok items, c) →
      i ∈ notified → ∀ it, it ∈ items → it.id ≠ i := by
  intro libs
  induction libs with
  | nil =>
    intro items c i h hi it hit
    simp only [detectNew, Prod.mk.injEq, Except.ok.injEq] at h
    obtain ⟨h1, -⟩ := h
    subst h1
    cases hit
  | cons l rest ih =>
    intro items c i h hi it hit
    simp only [detectNew] at h
    split at h
    · simp at h
    · split at h
      · simp at h
      · rename_i its heq tail n hdt
        simp only [Prod.mk.injEq, Except.ok.injEq] at h
        obtain ⟨h1, -⟩ := h
        subst h1
        rcases List.mem_append.mp hit with h1 | h2
        · obtain ⟨s, hs, hts⟩ := List.mem_map.mp h1
          simp only [freshOf, List.mem_filter, Bool.not_eq_true',
            decide_eq_false_iff_not] at hs
          rw [← hts]
          intro hcontra
          exact hs.2 (by rw [show s.id = i from hcontra]; exact hi)
        · exact ih tail n i hdt hi it h2

lemma cycle_ok_empty {env : CycleEnv} {notified : List Nat} {r : CycleResult}
    (h : sendNewItemNotifications env notified = CycleOut.ok r)
    (he : r.returned = []) :
    r.notified = notified ∧ r.sendAttempts = 0 := by
  obtain ⟨cid, ch, libsO, sresp, sOk, nw, lb⟩ := env
  simp only [sendNewItemNotifications] at h
  split at h
  · cases h; exact ⟨rfl, rfl⟩
  · split at h
    · cases h; exact ⟨rfl, rfl⟩
    · cases h; exact ⟨rfl, rfl⟩
    · split at h
      · cases h; exact ⟨rfl, rfl⟩
      · split at h
        · cases h; exact ⟨rfl, rfl⟩
        · split at h
          · cases h; exact ⟨rfl, rfl⟩
          · split at h
            · simp at h
            · split at h
              · cases h; exact ⟨rfl, rfl⟩
              · rename_i newItems n hne
                cases h
                exfalso
                exact hne (by rw [sortDesc_eq_nil_iff.mp he]; rfl)

lemma cycle_ok_marks {env : CycleEnv} {notified : List Nat} {r : CycleResult}
    (h : sendNewItemNotifications env notified = CycleOut.ok r) :
    ∀ it, it ∈ r.returned → it.id ∈ r.notified := by
  obtain ⟨cid, ch, libsO, sresp, sOk, nw, lb⟩ := env
  simp only [sendNewItemNotifications] at h
  split at h
  · cases h; intro it hit; cases hit
  · split at h
    · cases h; intro it hit; cases hit
    · cases h; intro it hit; cases hit
    · split at h
      · cases h; intro it hit; cases hit
      · split at h
        · cases h; intro it hit; cases hit
        · split at h
          · cases h; intro it hit; cases hit
          · split at h
            · simp at h
            · split at h
              · cases h; intro it hit; cases hit
              · cases h
                intro it hit
                exact dispatch_marks (by rw [chunks10_flatten]; exact hit)

lemma waitFrom_congr (o1 o2 : Nat → HealthResp) :
    ∀ (fuel k : Nat), (∀ j, j < k + fuel → o1 j = o2 j) →
      waitFrom o1 k fuel = waitFrom o2 k fuel := by
  intro fuel
  induction fuel with
  | zero => intro k _; rfl
  | succ n ih =>
    intro k hagree
    simp only [waitFrom]
    rw [hagree k (by omega)]
    split
    · rfl
    · exact ih (k + 1) (fun j hj => hagree j (by omega))

/-! ## Claim theorems -/

/-- Claim C1 (at-most-once selection): once an item has been returned by a
completed cycle — at which point its id is in the cycle's final in-memory
notified set — no detection pass run against that set ever selects an item
with that id again, whatever catalog responses, libraries, clock value or
lookback configuration the later pass sees. -/
theorem at_most_once_selection (env : CycleEnv) (notified : List Nat)
    (r : CycleResult) (it : NewItem)
    (h1 : sendNewItemNotifications env notified = CycleOut.ok r)
    (h2 : it ∈ r.returned)
    (resp2 : Nat → FetchSeries) (libs2 : List KLibrary) (now2 : Int)
    (env2 : Option Int) (items2 : List NewItem) (c2 : Nat)
    (h3 : detectNew resp2 r.notified now2 env2 libs2 = (Except.ok items2, c2))
    (it2 : NewItem) (h4 : it2 ∈ items2) :
    it.id ∈ r.notified ∧ it2.id ≠ it.id := by
  have hmark := cycle_ok_marks h1 it h2
  exact ⟨hmark,
    detectNew_ok_not_notified resp2 r.notified now2 env2 libs2 items2 c2 it.id
      h3 hmark it2 h4⟩

/-- Witness for C1: item 7 announced by a cycle over `envW` is in the
resulting notified set, and a later detection over a catalog holding both
series 7 and the new series 8 selects only series 8. -/
theorem at_most_once_selection_witness :
    itW.id ∈ rW.notified ∧ (NewItem.mk 8 "b" 0 "L").id ≠ itW.id :=
  at_most_once_selection envW [] rW itW (by decide) (by decide)
    respW2 [⟨1, "L"⟩] 0 (some 1) [⟨8, "b", 0, "L"⟩] 1 rfl ⟨8, "b", 0, "L"⟩
    (by decide)

/-- Counterexample to claim C2: with 15 new items split into pages of 10
and 5, the send of page 1 failing and page 2 succeeding, the persisted set
contains all 15 ids — not "exactly the 5 ids of page 2" — because
`notifiedIds.add(item.id)` runs in the `forEach` that builds each page's
embed, before `channel.send`, and a send failure is caught after the
page's ids are already marked. -/
theorem mark_before_send_cex :
    envPages.sendOk 0 = false ∧ envPages.sendOk 1 = true ∧
    (runCheck envPages []).savedPayload =
      some [1, 2, 3, 4, 5, 6, 7, 8, 9, 10, 11, 12, 13, 14, 15] := by decide

/-- Claim C2 as amended: an item's id is added to the in-memory notified
set while its page is rendered, before the send; a page's send failure is
caught and leaves its ids marked, so every paged item ends up in the final
set regardless of send outcomes, and a cycle that returned any item
persists that entire set. -/
theorem mark_before_send_amended (sendOk : Nat → Bool)
    (bs : List (List NewItem)) (s : List Nat) (i : Nat) (it : NewItem)
    (h : it ∈ bs.flatten) (env : CycleEnv) (notified : List Nat)
    (r : CycleResult) (h1 : sendNewItemNotifications env notified = CycleOut.ok r)
    (h2 : r.returned ≠ []) :
    it.id ∈ (dispatchLoop sendOk bs s i).1 ∧
    (runCheck env notified).savedPayload = some r.notified := by
  refine ⟨dispatch_marks h, ?_⟩
  simp only [runCheck, h1]
  simp [h2]

/-- Witness for the amended C2: item 7's id is marked although its page's
send fails, and the cycle over `envW` persists its whole final set. -/
theorem mark_before_send_amended_witness :
    itW.id ∈ (dispatchLoop (fun _ => false) [[itW]] [] 0).1 ∧
    (runCheck envW []).savedPayload = some rW.notified :=
  mark_before_send_amended (fun _ => false) [[itW]] [] 0 itW (by decide)
    envW [] rW (by decide) (by decide)

/-- Counterexample to claim C3: from the idle scheduler, a trigger followed
by one segment of the spawned cycle leaves that cycle in flight; a second
trigger arriving then is not a no-op — it starts a second concurrent cycle
(two program counters live), and running the second cycle's first segment
increments the Catalog Client call counter during the overlap.  Neither
`setupLibraryNotifications` nor `checkNow` consults a busy flag. -/
theorem concurrent_cycles_cex :
    (schedRun [SchedEv.trigger, SchedEv.run 0]).tasks = [1] ∧
    (schedRun [SchedEv.trigger, SchedEv.run 0, SchedEv.trigger]).tasks = [1, 0] ∧
    (schedRun [SchedEv.trigger, SchedEv.run 0, SchedEv.trigger,
        SchedEv.run 1]).catalogCalls = 2 := by decide

/-- Claim C3 as amended: a trigger (timer tick or `checkNow()`) always
spawns a fresh cycle, whatever is already in flight — the code has no
busy-flag serialization, so a trigger during an in-flight cycle starts a
second concurrent cycle rather than being a no-op. -/
theorem trigger_always_spawns (s : SchedState) :
    (schedStep s SchedEv.trigger).tasks = s.tasks ++ [0] ∧
    (schedStep s SchedEv.trigger).tasks.length = s.tasks.length + 1 := by
  simp [schedStep]

/-- Claim C4 (total store degradation): `getNotifiedIds` always returns
(never propagates an exception), yielding `[]` on health-check timeout and
on a thrown read; `saveNotifiedIds` always returns, yielding `false` on
timeout and on a thrown write; and `waitForVaultReady` consults the health
endpoint at most `vaultMaxPolls = 10000 / 500 = 20` times — its result
depends only on the first 20 poll outcomes. -/
theorem store_degradation_total (health : Nat → HealthResp) (read : ReadResp)
    (save : SaveResp) (o1 o2 : Nat → HealthResp) :
    (∃ ids, getNotifiedIds health read = Except.ok ids) ∧
    (waitForVaultReady health = false → getNotifiedIds health read = Except.ok []) ∧
    (getNotifiedIds health ReadResp.threw = Except.ok []) ∧
    (∃ b, saveNotifiedIds health save = Except.ok b) ∧
    (saveNotifiedIds health SaveResp.threw = Except.ok false) ∧
    (waitForVaultReady health = false → saveNotifiedIds health save = Except.ok false) ∧
    ((∀ k, k < vaultMaxPolls → o1 k = o2 k) →
      waitForVaultReady o1 = waitForVaultReady o2) := by
  refine ⟨?_, ?_, ?_, ?_, ?_, ?_, ?_⟩
  · cases h : waitForVaultReady health <;> cases read <;>
      simp [getNotifiedIds, h]
  · intro h; cases read <;> simp [getNotifiedIds, h]
  · cases h : waitForVaultReady health <;> simp [getNotifiedIds, h]
  · cases h : waitForVaultReady health <;> cases save <;>
      simp [saveNotifiedIds, h]
  · cases h : waitForVaultReady health <;> simp [saveNotifiedIds, h]
  · intro h; cases save <;> simp [saveNotifiedIds, h]
  · intro h
    exact waitFrom_congr o1 o2 vaultMaxPolls 0 (fun j hj => h j (by omega))

/-- Witness for C4: with every health poll throwing, a load returns the
empty set and a save returns `false`, neither raising. -/
theorem store_degradation_total_witness :
    getNotifiedIds (fun _ => HealthResp.threw) (ReadResp.ok (some [1, 2])) =
      Except.ok [] ∧
    saveNotifiedIds (fun _ => HealthResp.threw) (SaveResp.ok (some true)) =
      Except.ok false :=
  ⟨(store_degradation_total (fun _ => HealthResp.threw) (ReadResp.ok (some [1, 2]))
      (SaveResp.ok (some true)) (fun _ => HealthResp.threw)
      (fun _ => HealthResp.threw)).2.1 rfl,
   (store_degradation_total (fun _ => HealthResp.threw) (ReadResp.ok (some [1, 2]))
      (SaveResp.ok (some true)) (fun _ => HealthResp.threw)
      (fun _ => HealthResp.threw)).2.2.2.2.2.1 rfl⟩

/-- Claim C5 (single 401 retry): a 401 response triggers exactly one
re-authentication (one `authenticate()` call beyond the initial-token one)
and exactly one retry (two requests total); a successful retry's data is
returned, a failed retry's error propagates to the caller; any non-401
failure is surfaced immediately as the `null` error result after a single
request with no re-authentication. -/
theorem single_401_retry {α : Type} (tokenCached : Bool)
    (attempt : Nat → HttpResp α) :
    (∀ d, attempt 0 = HttpResp.err (some 401) → attempt 1 = HttpResp.ok d →
       fetchData tokenCached attempt =
         ⟨Except.ok (some d), 2, (if tokenCached then 0 else 1) + 1⟩) ∧
    (∀ s2, attempt 0 = HttpResp.err (some 401) → attempt 1 = HttpResp.err s2 →
       fetchData tokenCached attempt =
         ⟨Except.error s2, 2, (if tokenCached then 0 else 1) + 1⟩) ∧
    (∀ s, attempt 0 = HttpResp.err s → s ≠ some 401 →
       fetchData tokenCached attempt =
         ⟨Except.ok none, 1, if tokenCached then 0 else 1⟩) := by
  refine ⟨?_, ?_, ?_⟩
  · intro d h0 h1; simp [fetchData, h0, h1]
  · intro s2 h0 h1; simp [fetchData, h0, h1]
  · intro s h0 hs; simp [fetchData, h0, hs]

/-- Witness for C5: concrete 401-then-success, 401-then-failure, and
plain-500 calls. -/
theorem single_401_retry_witness :
    fetchData true attempt401ok = ⟨Except.ok (some 5), 2, 1⟩ ∧
    fetchData true attempt401err = ⟨Except.error none, 2, 1⟩ ∧
    fetchData false attempt500 = ⟨Except.ok none, 1, 1⟩ :=
  ⟨(single_401_retry true attempt401ok).1 5 rfl rfl,
   (single_401_retry true attempt401err).2.1 none rfl rfl,
   (single_401_retry false attempt500).2.2 (some 500) rfl (by decide)⟩

/-- Claim C6 (lookback boundary): a series of the requested library is kept
by `checkForNewItems` exactly when `created >= now - lookback` — the
boundary timestamp `now - lookback` itself included, anything strictly
older excluded; the lookback defaults to 168 hours when the
`KAVITA_LOOKBACK_HOURS` setting is absent; and an in-window item passes the
freshness filter exactly when its id is not in the notified set. -/
theorem lookback_boundary (now : Int) (resp : List Series) (lid : Nat)
    (s : Series) (env : Option Int) (kept : List Series)
    (items : List Series) (notified : List Nat)
    (hmem : s ∈ resp)
    (hkept : checkForNewItems (FetchSeries.arr resp) lid now env = Except.ok kept) :
    (s ∈ kept ↔ s.libraryId = lid ∧ now - lookbackHours env * 3600000 ≤ s.created) ∧
    lookbackHours none = 168 ∧
    (s ∈ freshOf items notified ↔ s ∈ items ∧ s.id ∉ notified) := by
  refine ⟨?_, rfl, ?_⟩
  · have hk : kept = (resp.filter (fun t => decide (t.libraryId = lid))).filter
        (fun t => decide (now - lookbackHours env * 3600000 ≤ t.created)) := by
      have := hkept
      simp only [checkForNewItems, getSeriesByLibrary, Except.ok.injEq] at this
      exact this.symm
    subst hk
    simp only [List.mem_filter, decide_eq_true_eq, hmem, true_and]
  · simp [freshOf, List.mem_filter]

/-- Witness for C6: with the 168-hour default, a series created exactly
168 hours before `now = 0` is kept, and survives the freshness filter
against a notified set not containing its id. -/
theorem lookback_boundary_witness :
    (sB ∈ [sB] ↔ sB.libraryId = 1 ∧
      (0 : Int) - lookbackHours none * 3600000 ≤ sB.created) ∧
    lookbackHours none = 168 ∧
    (sB ∈ freshOf [sB] [9] ↔ sB ∈ [sB] ∧ sB.id ∉ [9]) :=
  lookback_boundary 0 [sB] 1 sB none [sB] [sB] [9] (by decide) rfl

/-- Counterexample to claim C7: with 3 libraries where library 2's fetch
raises (a 401 whose retried request also failed — the one failure mode
`fetchData` does not convert to `null`), the cycle aborts with the raise
after 3 catalog calls (the library list, library 1, library 2): library 3
is never checked and the new items of libraries 1 and 3 are not returned,
contradicting "a failure while fetching one collection's items ... does
not prevent any of the remaining collections from being checked". -/
theorem collection_raise_aborts_cex :
    sendNewItemNotifications envAbort [] = CycleOut.raised [] 3 := by decide

/-- Claim C7 as amended: a fetch failure that `fetchData` converts to the
`null` error result (any non-401 failure, or a 401 whose re-authentication
fails) is absorbed as an empty contribution — detection over the library
list with such a library equals detection with that library removed — and
all libraries failing that way yields the empty, non-error result; only a
raising fetch (401 with failed retry) aborts the remaining libraries. -/
theorem collection_failure_isolated_amended (resp : Nat → FetchSeries)
    (libs1 libs2 : List KLibrary) (lf : KLibrary) (notified : List Nat)
    (now : Int) (env : Option Int) (libs : List KLibrary)
    (hnul : resp lf.id = FetchSeries.nul)
    (hall : ∀ l, l ∈ libs → resp l.id = FetchSeries.nul) :
    (detectNew resp notified now env (libs1 ++ lf :: libs2)).1 =
      (detectNew resp notified now env (libs1 ++ libs2)).1 ∧
    detectNew resp notified now env libs = (Except.ok [], libs.length) := by
  constructor
  · induction libs1 with
    | nil =>
      simp only [List.nil_append, detectNew, checkForNewItems,
        getSeriesByLibrary, hnul]
      rcases h2 : detectNew resp notified now env libs2 with ⟨res, n⟩
      cases res <;> simp [freshOf]
    | cons l ls1 ih =>
      simp only [List.cons_append, detectNew]
      rcases hck : checkForNewItems (resp l.id) l.id now env with e | its
      · rfl
      · rcases hL : detectNew resp notified now env (ls1 ++ lf :: libs2) with ⟨res1, n1⟩
        rcases hR : detectNew resp notified now env (ls1 ++ libs2) with ⟨res2, n2⟩
        have hres : res1 = res2 := by
          have := ih
          rw [hL, hR] at this
          exact this
        subst hres
        cases res1 <;> rfl
  · induction libs with
    | nil => rfl
    | cons l rest ih =>
      have hl : resp l.id = FetchSeries.nul := hall l (List.mem_cons_self l rest)
      have hrest := ih (fun x hx => hall x (List.mem_cons_of_mem l hx))
      simp only [detectNew, checkForNewItems, getSeriesByLibrary, hl, hrest]
      simp [freshOf]

/-- Witness for the amended C7: library 2's `null` fetch drops out of a
3-library detection without affecting libraries 1 and 3, and a detection
where every library yields `null` returns the empty non-error result. -/
theorem collection_failure_isolated_amended_witness :
    (detectNew respNul [] 0 (some 1)
        ([⟨1, "A"⟩] ++ (⟨2, "B"⟩ : KLibrary) :: [⟨3, "C"⟩])).1 =
      (detectNew respNul [] 0 (some 1) ([⟨1, "A"⟩] ++ [⟨3, "C"⟩])).1 ∧
    detectNew respNul [] 0 (some 1) [⟨2, "B"⟩] =
      (Except.ok [], [(⟨2, "B"⟩ : KLibrary)].length) :=
  collection_failure_isolated_amended respNul [⟨1, "A"⟩] [⟨3, "C"⟩] ⟨2, "B"⟩
    [] 0 (some 1) [⟨2, "B"⟩] rfl (by decide)

/-- Claim C8 (no-op persistence): when a cycle returns no new items,
`runCheck` never invokes `saveNotifiedIds`, the cycle attempted no channel
send, and the in-memory notified set is unchanged. -/
theorem noop_persistence (env : CycleEnv) (notified : List Nat)
    (r : CycleResult)
    (h1 : sendNewItemNotifications env notified = CycleOut.ok r)
    (h2 : r.returned = []) :
    (runCheck env notified).savedPayload = none ∧
    r.sendAttempts = 0 ∧ r.notified = notified := by
  obtain ⟨hn, ha⟩ := cycle_ok_empty h1 h2
  refine ⟨?_, ha, hn⟩
  simp [runCheck, h1, h2]

/-- Witness for C8: a cycle over an empty library saves nothing, sends
nothing, and leaves the set `[3]` untouched. -/
theorem noop_persistence_witness :
    (runCheck envEmpty [3]).savedPayload = none ∧
    rEmpty.sendAttempts = 0 ∧ rEmpty.notified = [3] :=
  noop_persistence envEmpty [3] rEmpty (by decide) (by decide)

/-- Claim C9 (fail-fast configuration): when `CHECK_INTERVAL_HOURS` is
missing, non-numeric (`parseInt` yields `NaN`) or below one hour, setup
arms neither the initial nor the repeating timer and substitutes no
default interval. -/
theorem fail_fast_config (clientReady : Bool) (env : EnvVal)
    (h : parseIntervalEnv env = none ∨
         ∃ n, parseIntervalEnv env = some n ∧ n < 1) :
    (setupLibraryNotifications clientReady env).timersArmed = false ∧
    (setupLibraryNotifications clientReady env).intervalMs = none := by
  rcases h with h | ⟨n, h, hn⟩
  · cases clientReady <;> simp [setupLibraryNotifications, h]
  · cases clientReady <;> simp [setupLibraryNotifications, h, hn]

/-- Witness for C9: an absent interval setting arms no timer. -/
theorem fail_fast_config_witness :
    (setupLibraryNotifications true EnvVal.absent).timersArmed = false ∧
    (setupLibraryNotifications true EnvVal.absent).intervalMs = none :=
  fail_fast_config true EnvVal.absent (Or.inl rfl)

/-- Claim C10 (dispatcher guard): when the channel id is unset, or the
channel fetch throws, returns nothing, or returns a non-text-based channel,
the dispatcher returns the empty list having issued zero catalog queries,
attempted zero sends, and left the notified set unchanged. -/
theorem dispatcher_guard (env : CycleEnv) (notified : List Nat)
    (h : env.channelId = none ∨ env.channel = ChannelResp.raised ∨
         env.channel = ChannelResp.missing ∨
         env.channel = ChannelResp.chan false) :
    sendNewItemNotifications env notified = CycleOut.ok ⟨[], notified, 0, 0, 0⟩ := by
  obtain ⟨cid, ch, libsO, sresp, sOk, nw, lb⟩ := env
  simp only at h
  rcases h with h | h | h | h
  · subst h; simp [sendNewItemNotifications]
  · subst h; cases cid <;> simp [sendNewItemNotifications]
  · subst h; cases cid <;> simp [sendNewItemNotifications]
  · subst h; cases cid <;> simp [sendNewItemNotifications]

/-- Witness for C10: with the channel id unset, the dispatcher returns
empty, queries nothing, and leaves the set `[4]` as it was. -/
theorem dispatcher_guard_witness :
    sendNewItemNotifications envGuard [4] = CycleOut.ok ⟨[], [4], 0, 0, 0⟩ :=
  dispatcher_guard envGuard [4] (Or.inl rfl)
